import Mathlib

/-!
# Verification of the `fpt` fault-proof conformance test harness

A shallow embedding of the core of the `fpt` test harness (registry and
compatibility-matrix resolution, build orchestration, platform execution,
and the setup/run/teardown test pipeline), together with theorems settling
the specification claims against it.

Conventions of the embedding:
* Rust `HashMap`s become association lists; only set membership of entries is
  meaningful (the source spec guarantees no ordering).
* `PathBuf` values become `String`s; `PathBuf::join` becomes concatenation
  with a `/` separator.  The compile-time `HOME` environment value is
  abstracted as a fixed string, since no claim depends on its exact value.
* Fallible Rust code returning `Result<T, Report>` becomes `Except Err T`
  with an explicit error inductive.  A Rust `panic!`/`todo!`/`unimplemented!`
  is modelled by a dedicated error constructor so that it stays
  distinguishable from ordinary `Err` returns.
* Async effects (child-process outcomes, file reads) are passed in as
  explicit `Except`-valued arguments; everything computed by the harness code
  itself is translated as executable Lean functions.
-/

/-! ## Platform and program kinds (`src/registry/platform.rs`, `src/registry/program.rs`) -/

/-- Supported platform kinds (`PlatformKind` in `src/registry/platform.rs`). -/
inductive PlatformKind
  /-- Native platform -/
  | Native
  /-- `cannon` -/
  | Cannon
  /-- `asterisc` -/
  | Asterisc
deriving DecidableEq, Repr

/-- Supported program kinds (`ProgramKind` in `src/registry/program.rs`). -/
inductive ProgramKind
  /-- `op-program` (native) -/
  | OpProgramNative
  /-- `op-program` (mips / cannon) -/
  | OpProgramMips
  /-- `op-program` (riscv / asterisc) -/
  | OpProgramRiscv
  /-- `kona` (native) -/
  | KonaNative
  /-- `kona` (riscv / asterisc) -/
  | KonaRiscv
deriving DecidableEq, Repr

/-- `FromStr for PlatformKind` (`src/registry/platform.rs`): parse the
kebab-case name of a platform kind, rejecting unknown identifiers with a
descriptive message. -/
def PlatformKind.from_str (s : String) : Except String PlatformKind :=
  if s = "native" then Except.ok PlatformKind.Native
  else if s = "cannon" then Except.ok PlatformKind.Cannon
  else if s = "asterisc" then Except.ok PlatformKind.Asterisc
  else Except.error ("Unknown program kind: " ++ s)

/-- `Display for PlatformKind` (`src/registry/platform.rs`). -/
def PlatformKind.display : PlatformKind → String
  | PlatformKind.Native => "native"
  | PlatformKind.Cannon => "cannon"
  | PlatformKind.Asterisc => "asterisc"

/-- `FromStr for ProgramKind` (`src/registry/program.rs`): note the source
maps the string `"kona-riscv"` to `Self::KonaNative`. -/
def ProgramKind.from_str (s : String) : Except String ProgramKind :=
  if s = "op-program-native" then Except.ok ProgramKind.OpProgramNative
  else if s = "op-program-mips" then Except.ok ProgramKind.OpProgramMips
  else if s = "op-program-riscv" then Except.ok ProgramKind.OpProgramRiscv
  else if s = "kona-native" then Except.ok ProgramKind.KonaNative
  else if s = "kona-riscv" then Except.ok ProgramKind.KonaNative
  else Except.error ("Unknown program kind: " ++ s)

/-- `Display for ProgramKind` (`src/registry/program.rs`). -/
def ProgramKind.display : ProgramKind → String
  | ProgramKind.OpProgramNative => "op-program-native"
  | ProgramKind.OpProgramMips => "op-program-mips"
  | ProgramKind.OpProgramRiscv => "op-program-riscv"
  | ProgramKind.KonaNative => "kona-native"
  | ProgramKind.KonaRiscv => "kona-riscv"

/-! ## Registry data model (`src/registry/mod.rs`) -/

/-- The directory containing the components (`COMPONENTS_DIR`); the
compile-time `HOME` prefix is abstracted. -/
def COMPONENTS_DIR : String := "~/.fpt/components"

/-- Build instructions for a binary within a GitHub repository
(`BuildInstructions` in `src/registry/mod.rs`). -/
structure BuildInstructions where
  /-- The org/reponame of the github repository to build. -/
  repo : String
  /-- The revision or tag to build. -/
  rev : String
  /-- The workdir of the build. -/
  workdir : String
  /-- The build command to run. -/
  cmd : String
  /-- The binary paths, relative to the workdir, keyed by artifact name. -/
  artifacts : List (String × String)
deriving DecidableEq, Repr

/-- The platform definition (`PlatformDefinition` in `src/registry/mod.rs`). -/
structure PlatformDefinition where
  /-- Whether or not to run the platform by default. -/
  default : Bool
  /-- The instructions to build the platform locally. -/
  build : Option BuildInstructions
deriving DecidableEq, Repr

/-- The FPP definition (`FPPDefinition` in `src/registry/mod.rs`). -/
structure FPPDefinition where
  /-- Whether or not to run the FPP by default. -/
  default : Bool
  /-- The compatibility of the FPP, with respect to the available platforms. -/
  platform_compat : List PlatformKind
  /-- The instructions to build the FPP locally. -/
  build : BuildInstructions
deriving DecidableEq, Repr

/-- The FP registry (`FPRegistry` in `src/registry/mod.rs`); the Rust
`HashMap`s become association lists. -/
structure FPRegistry where
  /-- The fault proof virtual machines available in the registry. -/
  platform : List (PlatformKind × PlatformDefinition)
  /-- The fault proof programs available in the registry. -/
  program : List (ProgramKind × FPPDefinition)
deriving DecidableEq, Repr

/-- A pair of a platform and its compatible programs (`PlatformAndPrograms`
in `src/registry/mod.rs`). -/
structure PlatformAndPrograms where
  /-- The platform to execute the programs on. -/
  vm : PlatformDefinition
  /-- The kind of the fault proof virtual machine. -/
  vm_kind : PlatformKind
  /-- The fault proof programs and their names. -/
  programs : List (ProgramKind × FPPDefinition)
deriving DecidableEq, Repr

/-- The test-selection configuration (`TestConfig` in `src/cli.rs`). -/
structure TestConfig where
  /-- The test to run (glob pattern supported). -/
  test : Option String
  /-- The FPVMs to run the tests on. -/
  vm : Option (List PlatformKind)
  /-- The FPPs to run the tests on. -/
  program : Option (List ProgramKind)
  /-- The partition of tests to run. -/
  partition : Option String
  /-- The number of active workers (default = 4). -/
  workers : Nat
deriving DecidableEq, Repr

/-- `FPRegistry::resolve_matrix` (`src/registry/mod.rs` lines 41–88): the
matrix of compatibility between the available FPVMs and FPPs.  With a
`TestConfig`, the selected platforms are the explicit `vm` allow-list if
given, else the platforms flagged default; a program is admitted into a
platform entry when its declared compatibility contains the platform kind
and it is default-flagged or explicitly selected.  With no config, all
platforms and all compatible programs are returned. -/
def FPRegistry.resolve_matrix (r : FPRegistry) (cfg : Option TestConfig) :
    List PlatformAndPrograms :=
  let selected_platforms : List (PlatformKind × PlatformDefinition) :=
    match cfg with
    | some c =>
      match c.vm with
      | some vmList => r.platform.filter (fun p => decide (p.1 ∈ vmList))
      | none => r.platform.filter (fun p => p.2.default)
    | none => r.platform
  selected_platforms.map (fun p =>
    let compat := r.program.filter (fun pr =>
      decide (p.1 ∈ pr.2.platform_compat) &&
        (match cfg with
         | some c =>
           pr.2.default ||
             (match c.program with
              | some progList => decide (pr.1 ∈ progList)
              | none => false)
         | none => true))
    { vm := p.2, vm_kind := p.1, programs := compat })

/-! ## Build orchestration (`src/registry/build.rs`) -/

/-- `BuildInstructions::get_artifact` (`src/registry/build.rs` lines 14–21):
resolve a named artifact to an absolute path
`COMPONENTS_DIR/repo/workdir/<relative path>`; `None` when the name is
absent from the artifacts map.  It takes no build state: the result depends
only on the build instructions and the name. -/
def BuildInstructions.get_artifact (b : BuildInstructions) (name : String) :
    Option String :=
  (b.artifacts.lookup name).map (fun p =>
    COMPONENTS_DIR ++ "/" ++ b.repo ++ "/" ++ b.workdir ++ "/" ++ p)

/-- A git side effect issued by the build orchestrator. -/
inductive GitCmd
  /-- `git clone -b <rev> https://github.com/<repo> <dir>` -/
  | clone (repo rev : String)
  /-- `git fetch origin` inside the checkout of `repo` -/
  | fetch (repo : String)
  /-- `git checkout <rev>` inside the checkout of `repo` -/
  | checkout (repo rev : String)
deriving DecidableEq, Repr

/-- The state of the on-disk component cache: for each cloned repository
(keyed by its `org/reponame` coordinate), the revision currently checked
out. -/
structure GitState where
  /-- Checked-out repositories and their current revisions. -/
  checkouts : List (String × String)
deriving DecidableEq, Repr

/-- `BuildInstructions::sync_repo` (`src/registry/build.rs` lines 59–124),
with the child-process effects reified as a `GitCmd` trace (all git commands
are assumed to succeed).  If the checkout directory for `repo` already
exists, the source skips the clone but runs `git fetch origin` followed by
`git checkout <rev>` — so the existing checkout is moved to the pinned
revision.  Otherwise the repository is cloned at the pinned revision. -/
def BuildInstructions.sync_repo (b : BuildInstructions) (s : GitState) :
    GitState × List GitCmd :=
  if b.repo ∈ s.checkouts.map Prod.fst then
    (⟨s.checkouts.map (fun kv => if kv.1 = b.repo then (kv.1, b.rev) else kv)⟩,
      [GitCmd.fetch b.repo, GitCmd.checkout b.repo b.rev])
  else
    (⟨s.checkouts ++ [(b.repo, b.rev)]⟩, [GitCmd.clone b.repo b.rev])

/-- `BuildInstructions::try_build` (`src/registry/build.rs` lines 24–56)
restricted to its effect on the component cache: it first syncs the
repository and then runs the build commands inside the workdir, which does
not change which revision is checked out. -/
def BuildInstructions.try_build (b : BuildInstructions) (s : GitState) :
    GitState × List GitCmd :=
  b.sync_repo s

/-- Modelled from the spec: the specification's reading of `get_artifact`
(§3 invariant, §4.2), under which artifact resolution on a component whose
build never ran fails with a not-found condition.  The build-ran flag does
not exist in the source signature; this definition exists only to be
compared with `BuildInstructions.get_artifact` above. -/
def spec_get_artifact (built : Bool) (b : BuildInstructions) (name : String) :
    Option String :=
  if built then b.get_artifact name else none

/-! ## Error model for execution -/

/-- Errors raised by the execution layer.  Constructors mirror the distinct
`eyre!`/`ensure!`/panic sites of the source. -/
inductive Err
  /-- `eyre!("Failed to get client artifact")` in `RunnableTest::run`. -/
  | clientArtifactMissing
  /-- `eyre!("No host artifact")` in `RunnableTest::run`. -/
  | hostArtifactMissing
  /-- `eyre!("Binary required for cannon platform")` in `PlatformKind::get_platform`. -/
  | cannonBinaryRequired
  /-- `unimplemented!()` for the `asterisc` platform. -/
  | panicUnimplemented
  /-- `todo!()` for the `kona` program kinds in `ProgramKind::get_program`. -/
  | panicTodo
  /-- `ensure!(output.exited, "Program did not exit")` in `Cannon::run`. -/
  | didNotExit
  /-- `eyre!("Missing exit code")` in `Native::run` (process killed by signal). -/
  | missingExitCode
  /-- `eyre!("Missing host binary")` in `Native::run`. -/
  | missingHostBinary
  /-- An I/O failure (spawn, file read) surfaced by `?`. -/
  | ioError
  /-- A `serde_json` parse failure surfaced by `?`. -/
  | parseError
  /-- `ensure!(..., "Failed to load ELF file into Cannon")`. -/
  | loadElfFailed
  /-- A `JoinError` from the task join set. -/
  | joinError
deriving DecidableEq, Repr

/-! ## Program adapter (`src/registry/program.rs`, `src/registry/program/op_program.rs`) -/

/-- The basic fixture inputs (`FixtureInputs` in `src/fixture.rs`); the
`B256` hashes are kept as display strings. -/
structure FixtureInputs where
  /-- The L1 head hash. -/
  l1_head : String
  /-- The block number of the L2 claim. -/
  l2_block_number : Nat
  /-- The L2 claim. -/
  l2_claim : String
  /-- The starting, trusted L2 output root. -/
  l2_output_root : String
  /-- The L2 head hash. -/
  l2_head : String
  /-- The L2 chain ID. -/
  l2_chain_id : Nat
deriving DecidableEq, Repr

/-- The data source for the preimage server (`ProgramHostSource` in
`src/registry/program.rs`). -/
inductive ProgramHostSource
  /-- Disk-backed preimage server. -/
  | Disk (path : String)
  /-- RPC-backed preimage server. -/
  | Rpc (l1 l1_beacon l2 : String) (path : String)
deriving DecidableEq, Repr

/-- The inputs to the program host binary (`ProgramHostInputs` in
`src/registry/program.rs`). -/
structure ProgramHostInputs where
  /-- The basic inputs to the program host. -/
  fixture_inputs : FixtureInputs
  /-- The path to the `rollup.json` file. -/
  rollup_cfg_path : String
  /-- The path to the `genesis.json` file. -/
  genesis_path : String
  /-- The data source for the fixture. -/
  source : ProgramHostSource
deriving DecidableEq, Repr

/-- The `op-program` fault proof program (`OpProgram` in
`src/registry/program/op_program.rs`). -/
structure OpProgram where
  /-- The path to the host binary. -/
  binary : String
  /-- Whether to run the host in server mode. -/
  server_mode : Bool
deriving DecidableEq, Repr

/-- `OpProgram::host_cmd` (`src/registry/program/op_program.rs` lines
27–76): the host command line, starting with the binary path, followed by
the protocol flags, the optional `--server` flag and the data-source
flags. -/
def OpProgram.host_cmd (p : OpProgram) (inputs : ProgramHostInputs) :
    List String :=
  [p.binary,
   "--l1.head", inputs.fixture_inputs.l1_head,
   "--l2.head", inputs.fixture_inputs.l2_head,
   "--l2.outputroot", inputs.fixture_inputs.l2_output_root,
   "--l2.claim", inputs.fixture_inputs.l2_claim,
   "--l2.blocknumber", toString inputs.fixture_inputs.l2_block_number,
   "--rollup.config", inputs.rollup_cfg_path,
   "--l2.genesis", inputs.genesis_path]
  ++ (if p.server_mode then ["--server"] else [])
  ++ (match inputs.source with
      | ProgramHostSource.Disk path => ["--datadir", path]
      | ProgramHostSource.Rpc l1 l1_beacon l2 path =>
        ["--l1", l1, "--l1.beacon", l1_beacon, "--l2", l2, "--datadir", path])

/-- `ProgramKind::get_program` (`src/registry/program.rs` lines 40–48):
construct the adapter for a program kind given the host binary path;
`op-program-native` runs to completion, the VM-hosted variants run in
server mode; the `kona` kinds hit `todo!()`, modelled as `Err.panicTodo`. -/
def ProgramKind.get_program (k : ProgramKind) (bin_path : String) :
    Except Err OpProgram :=
  match k with
  | ProgramKind.OpProgramNative => Except.ok ⟨bin_path, false⟩
  | ProgramKind.OpProgramMips => Except.ok ⟨bin_path, true⟩
  | ProgramKind.OpProgramRiscv => Except.ok ⟨bin_path, true⟩
  | ProgramKind.KonaNative => Except.error Err.panicTodo
  | ProgramKind.KonaRiscv => Except.error Err.panicTodo

/-! ## Platform execution (`src/registry/platform.rs`, `platform/cannon.rs`, `platform/native.rs`) -/

/-- A resolved platform instance: the native platform, or a VM driven by an
external binary. -/
inductive PlatformInstance
  /-- The native platform (`Native` in `platform/native.rs`). -/
  | Native
  /-- The Cannon VM with the path to its binary (`Cannon` in `platform/cannon.rs`). -/
  | Cannon (binary : String)
deriving DecidableEq, Repr

/-- `PlatformKind::get_platform` (`src/registry/platform.rs`): the native
platform needs no binary; `cannon` requires one and fails with an error
when it is absent; `asterisc` hits `unimplemented!()`, modelled as
`Err.panicUnimplemented`. -/
def PlatformKind.get_platform (k : PlatformKind) (binary : Option String) :
    Except Err PlatformInstance :=
  match k with
  | PlatformKind.Native => Except.ok PlatformInstance.Native
  | PlatformKind.Cannon =>
    match binary with
    | some b => Except.ok (PlatformInstance.Cannon b)
    | none => Except.error Err.cannonBinaryRequired
  | PlatformKind.Asterisc => Except.error Err.panicUnimplemented

/-- The portion of Cannon's `out.json` side-file that `Cannon::run` reads
(`PartialCannonOutput` in `src/registry/platform/cannon.rs` lines 82–89). -/
structure PartialCannonOutput where
  /-- Whether or not the program has exited. -/
  exited : Bool
  /-- The exit code of the program (a byte). -/
  exit : Nat
deriving DecidableEq, Repr

/-- `Cannon::run` (`src/registry/platform/cannon.rs` lines 51–79) after the
VM child process has been spawned: the VM's own process status is never
inspected; the run's outcome is read back from the `out.json` side-file
(`side_file` is the result of reading and parsing it).  A side-file with
`exited = false` raises `ensure!(output.exited, "Program did not exit")`;
otherwise the declared `exit` byte is returned. -/
def Cannon.run (side_file : Except Err PartialCannonOutput) : Except Err Nat :=
  match side_file with
  | Except.error e => Except.error e
  | Except.ok output =>
    if output.exited then Except.ok output.exit else Except.error Err.didNotExit

/-- `Native::run` (`src/registry/platform/native.rs` lines 21–47) after
resolving the host command: an empty command vector raises the
missing-host-binary error; otherwise the child process is executed and
`process_status` is its outcome — `none` meaning termination without an
exit code (killed by a signal), which raises `eyre!("Missing exit code")`,
and `some code` being the raw exit code, truncated to a byte by `as u8`. -/
def Native.run (host_cmd : List String)
    (process_status : Except Err (Option Nat)) : Except Err Nat :=
  match host_cmd with
  | [] => Except.error Err.missingHostBinary
  | _ :: _ =>
    match process_status with
    | Except.error e => Except.error e
    | Except.ok none => Except.error Err.missingExitCode
    | Except.ok (some code) => Except.ok (code % 256)

/-! ## Runnable tests (`src/pipeline/runnable.rs`) -/

/-- The test fixture metadata carried by a runnable test (`FixtureMetadata`,
referenced from `src/pipeline/runnable.rs`): the fixture's name and its
expected status byte. -/
structure FixtureMetadata where
  /-- The name of the test fixture. -/
  name : String
  /-- The expected status byte of the program execution. -/
  expected_status : Nat
deriving DecidableEq, Repr

/-- An individual test case runner (`RunnableTest` in
`src/pipeline/runnable.rs`); the `Arc` wrappers are dropped since all the
definitions are immutable values here. -/
structure RunnableTest where
  /-- The test fixture metadata. -/
  fixture_meta : FixtureMetadata
  /-- The inputs for the test case. -/
  inputs : ProgramHostInputs
  /-- The platform to run the test on. -/
  platform_kind : PlatformKind
  /-- The platform definition. -/
  platform_definition : PlatformAndPrograms
  /-- The program to run. -/
  program_kind : ProgramKind
  /-- The program definition. -/
  program_definition : FPPDefinition
deriving DecidableEq, Repr

/-- `RunnableTest::run` (`src/pipeline/runnable.rs` lines 57–94).  The
resolution steps (client artifact, platform instance, host artifact,
program adapter) are translated directly; the two async backend effects are
passed in: `load_elf` is the outcome of `platform.load_elf` and
`platform_run` the outcome of `platform.run` (an exit-status byte on
success).  On success the returned boolean is the pass verdict: whether the
returned status equals the fixture's expected status. -/
def RunnableTest.run (t : RunnableTest) (load_elf : Except Err Unit)
    (platform_run : Except Err Nat) : Except Err Bool :=
  match t.program_definition.build.get_artifact "client" with
  | none => Except.error Err.clientArtifactMissing
  | some _client_artifact =>
    match t.platform_definition.vm_kind.get_platform
        (t.platform_definition.vm.build.bind (fun b => b.get_artifact "vm")) with
    | Except.error e => Except.error e
    | Except.ok _platform =>
      match t.program_definition.build.get_artifact "host" with
      | none => Except.error Err.hostArtifactMissing
      | some host =>
        match t.program_kind.get_program host with
        | Except.error e => Except.error e
        | Except.ok _program =>
          match load_elf with
          | Except.error e => Except.error e
          | Except.ok _ =>
            match platform_run with
            | Except.error e => Except.error e
            | Except.ok result =>
              Except.ok (decide (result = t.fixture_meta.expected_status))

/-! ## Test pipeline (`src/pipeline/mod.rs`) -/

namespace TestPipeline

/-- The join loop of `TestPipeline::run` (`src/pipeline/mod.rs` lines
132–135): the task results are consumed in completion order; each `ok`
verdict adds to `num_passed`; the first `error` is propagated immediately
by `result??`, abandoning the rest of the loop. -/
def joinLoop : List (Except Err Bool) → Nat → Except Err Nat
  | [], num_passed => Except.ok num_passed
  | r :: rs, num_passed =>
    match r with
    | Except.error e => Except.error e
    | Except.ok pass => joinLoop rs (num_passed + (if pass then 1 else 0))

/-- The number of task results the join loop of `TestPipeline::run`
consumes before returning: all of them when none errors, and only the
results up to and including the first error otherwise (returning early
drops the `JoinSet`, so the remaining tasks are aborted, not joined). -/
def joinedCount : List (Except Err Bool) → Nat
  | [] => 0
  | r :: rs =>
    match r with
    | Except.error _ => 1
    | Except.ok _ => 1 + joinedCount rs

/-- The run stage (`TestPipeline::run`, `src/pipeline/mod.rs` lines
70–146) viewed on the joined task results: on success it produces the
printed summary `(num_passed, num_failed)` with
`num_failed = num_tests - num_passed`; a task error propagates before the
summary line is reached, so no summary is produced. -/
def runStage (results : List (Except Err Bool)) : Except Err (Nat × Nat) :=
  match joinLoop results 0 with
  | Except.error e => Except.error e
  | Except.ok num_passed => Except.ok (num_passed, results.length - num_passed)

/-- `itertools`' `unique_by` as used by `decompress_fixtures` and
`teardown`: keep the first element for each key, dropping later elements
whose key was already seen. -/
def uniqueByAux {α β : Type} (key : α → β) [DecidableEq β] :
    List α → List β → List α
  | [], _ => []
  | x :: xs, seen =>
    if key x ∈ seen then uniqueByAux key xs seen
    else x :: uniqueByAux key xs (key x :: seen)

/-- `unique_by` over a whole list (no keys seen yet). -/
def uniqueBy {α β : Type} (key : α → β) [DecidableEq β] (l : List α) : List α :=
  uniqueByAux key l []

/-- The fixture identity the pipeline de-duplicates on: both
`TestPipeline::decompress_fixtures` (lines 274–278) and
`TestPipeline::teardown` (lines 155–159) key `unique_by` on the test's
`inputs.genesis_path`, which is `fixture_path.join("genesis.json")` — the
fixture's on-disk identity. -/
def fixtureKey (t : RunnableTest) : String :=
  t.inputs.genesis_path

/-- The list of `RunnableTest::decompress_fixture` invocations spawned by
`TestPipeline::decompress_fixtures` (`src/pipeline/mod.rs` lines 272–308):
one task per `unique_by`-deduplicated fixture. -/
def decompressCalls (tests : List RunnableTest) : List RunnableTest :=
  uniqueBy fixtureKey tests

/-- The list of `RunnableTest::teardown` invocations spawned by
`TestPipeline::teardown` (`src/pipeline/mod.rs` lines 152–200): one task
per `unique_by`-deduplicated fixture, with the same key as setup. -/
def teardownCalls (tests : List RunnableTest) : List RunnableTest :=
  uniqueBy fixtureKey tests

end TestPipeline

/-- `CliSubcommand::Test` handling in `Cli::run` (`src/cli.rs` lines
33–42) restricted to the run and teardown stages: the pipeline's `run`
produces its summary (or propagates a task error), then `teardown` runs;
the command's overall result is `ok` iff both succeed.  A recorded failed
test does not influence this result. -/
def Cli.runTest (results : List (Except Err Bool))
    (teardown_result : Except Err Unit) : Except Err Unit :=
  match TestPipeline.runStage results with
  | Except.error e => Except.error e
  | Except.ok _summary => teardown_result

/-- `main` (`src/main.rs` lines 16–19): a `Result`-returning `main`
terminates the process with exit code 0 on `Ok` and a non-zero code on
`Err`. -/
def processExitCode (r : Except Err Unit) : Nat :=
  match r with
  | Except.ok _ => 0
  | Except.error _ => 1

/-! ## Concrete sample data used by witnesses and counterexamples -/

/-- A sample build spec with `client`, `host` and `vm` artifacts. -/
def sampleBuild : BuildInstructions :=
  { repo := "op/monorepo"
    rev := "v1"
    workdir := "cannon"
    cmd := "make build"
    artifacts := [("client", "bin/client.elf"), ("host", "bin/host"), ("vm", "bin/cannon")] }

/-- A sample program definition flagged default with native compatibility. -/
def sampleProgramDef : FPPDefinition :=
  { default := true, platform_compat := [PlatformKind.Native], build := sampleBuild }

/-- A sample native platform definition flagged default, with no build. -/
def samplePlatformDef : PlatformDefinition :=
  { default := true, build := none }

/-- A sample registry: one default native platform, one default
native-compatible program. -/
def sampleRegistry : FPRegistry :=
  { platform := [(PlatformKind.Native, samplePlatformDef)]
    program := [(ProgramKind.OpProgramNative, sampleProgramDef)] }

/-- Host inputs of a sample fixture rooted at `tests/simple-transfer`. -/
def sampleInputs : ProgramHostInputs :=
  { fixture_inputs :=
      { l1_head := "0xaa", l2_block_number := 7, l2_claim := "0xbb"
        l2_output_root := "0xcc", l2_head := "0xdd", l2_chain_id := 10 }
    rollup_cfg_path := "tests/simple-transfer/rollup.json"
    genesis_path := "tests/simple-transfer/genesis.json"
    source := ProgramHostSource.Disk "tests/simple-transfer/witness-db" }

/-- The matrix entry that `resolve_matrix` produces for the sample
registry: the native platform carrying the default native program. -/
def sampleMatrixEntry : PlatformAndPrograms :=
  { vm := samplePlatformDef
    vm_kind := PlatformKind.Native
    programs := [(ProgramKind.OpProgramNative, sampleProgramDef)] }

/-- A sample runnable unit: the `simple-transfer` fixture with expected
status 0 on the native platform with `op-program-native`. -/
def sampleTest : RunnableTest :=
  { fixture_meta := { name := "simple-transfer", expected_status := 0 }
    inputs := sampleInputs
    platform_kind := PlatformKind.Native
    platform_definition :=
      { vm := samplePlatformDef, vm_kind := PlatformKind.Native
        programs := [(ProgramKind.OpProgramNative, sampleProgramDef)] }
    program_kind := ProgramKind.OpProgramNative
    program_definition := sampleProgramDef }

/-! ## Claim C10 — `ProgramKind` parse/display round trip -/

/-- Claim C10: parsing the display name is not a left inverse of display
for every `ProgramKind` variant: `from_str "kona-riscv"` returns
`KonaNative`, so the round trip fails for `KonaRiscv` while holding for
every other `ProgramKind` variant and for every `PlatformKind` variant. -/
theorem claim_C10_round_trip :
    ProgramKind.from_str (ProgramKind.display ProgramKind.KonaRiscv) =
      Except.ok ProgramKind.KonaNative
    ∧ ProgramKind.KonaNative ≠ ProgramKind.KonaRiscv
    ∧ (∀ k : ProgramKind, k ≠ ProgramKind.KonaRiscv →
        ProgramKind.from_str (ProgramKind.display k) = Except.ok k)
    ∧ (∀ k : PlatformKind,
        PlatformKind.from_str (PlatformKind.display k) = Except.ok k) := by
  refine ⟨rfl, by simp, ?_, ?_⟩
  · intro k hk
    cases k <;> first | rfl | exact absurd rfl hk
  · intro k
    cases k <;> rfl

/-! ## Claim C8 — Cannon exit status comes from the side-file -/

/-- Claim C8: for every Cannon run, the exit status is the one declared by
the `out.json` side-file: a side-file declaring the guest did not exit
yields the distinct `didNotExit` execution error and never a status byte,
and a side-file declaring an exit yields exactly the declared status
byte. -/
theorem claim_C8_cannon_side_file (output : PartialCannonOutput) :
    Cannon.run (Except.ok output) =
      (if output.exited then Except.ok output.exit
       else Except.error Err.didNotExit) := by
  simp [Cannon.run]

/-! ## Claim C7 — `get_artifact` on unknown names and unbuilt components -/

/-- Claim C7 counterexample: `get_artifact` takes no build state, so on a
component whose build never ran it still resolves a known artifact name to
a path (`sampleBuild` here), instead of the not-found condition the claim
requires; `spec_get_artifact` is the claim's reading, which returns
not-found when the build never ran. -/
theorem claim_C7_counterexample :
    BuildInstructions.get_artifact sampleBuild "client" ≠ none
    ∧ spec_get_artifact false sampleBuild "client" = none := by
  constructor
  · intro h
    simp [BuildInstructions.get_artifact, sampleBuild, List.lookup] at h
  · rfl

/-- Claim C7 (amended): `get_artifact` returns the not-found condition
(`none`) exactly when the name is absent from the artifacts map, and it is
a total function of the build spec and the name alone — it never panics,
but it performs no built-ness check, so the not-found condition does not
cover the build-never-ran case. -/
theorem claim_C7_amended_not_found (b : BuildInstructions) (name : String) :
    b.get_artifact name = none ↔ b.artifacts.lookup name = none := by
  simp [BuildInstructions.get_artifact]

/-! ## Claim C6 — `try_build` idempotence and re-syncing -/

/-- The cache state in which `sampleBuild`'s repository is checked out at a
stale revision `v0`. -/
def staleState : GitState := ⟨[("op/monorepo", "v0")]⟩

/-- Claim C6 counterexample: with `sampleBuild` pinned at `v1` and an
existing checkout at `v0`, `sync_repo` issues a `git checkout v1` and moves
the checkout to the pinned revision — the existing checkout *is* re-synced,
contradicting the claim that it is not. -/
theorem claim_C6_counterexample :
    GitCmd.checkout "op/monorepo" "v1" ∈ (sampleBuild.sync_repo staleState).2
    ∧ (sampleBuild.sync_repo staleState).1.checkouts = [("op/monorepo", "v1")]
    ∧ (sampleBuild.sync_repo staleState).1 ≠ staleState := by
  refine ⟨?_, ?_, ?_⟩ <;> decide

/-- If a repository coordinate is not among the cache's keys, updating the
revision of that coordinate leaves the checkout list unchanged. -/
theorem map_update_of_not_mem (l : List (String × String)) (repo rev : String)
    (h : repo ∉ l.map Prod.fst) :
    l.map (fun kv => if kv.1 = repo then (kv.1, rev) else kv) = l := by
  induction l with
  | nil => rfl
  | cons kv l ih =>
    simp only [List.map_cons, List.mem_cons, not_or] at h ⊢
    rw [if_neg (fun hh => h.1 hh.symm), ih h.2]

/-- Claim C6 (amended): after a first `try_build` clones a fresh checkout,
a second `try_build` performs no redundant clone and leaves the cache state
unchanged (hence `get_artifact`, a pure function of the build spec, resolves
to the same artifact paths); however the second invocation *does* re-sync
the existing checkout, issuing `git fetch` followed by `git checkout` of
the pinned revision. -/
theorem claim_C6_amended_idempotent (b : BuildInstructions) (s0 : GitState)
    (h : b.repo ∉ s0.checkouts.map Prod.fst) :
    (∀ repo rev, GitCmd.clone repo rev ∉ (b.try_build (b.try_build s0).1).2)
    ∧ (b.try_build (b.try_build s0).1).2 =
        [GitCmd.fetch b.repo, GitCmd.checkout b.repo b.rev]
    ∧ (b.try_build (b.try_build s0).1).1 = (b.try_build s0).1 := by
  have h1 : b.try_build s0 =
      (⟨s0.checkouts ++ [(b.repo, b.rev)]⟩, [GitCmd.clone b.repo b.rev]) := by
    simp [BuildInstructions.try_build, BuildInstructions.sync_repo, h]
  have hmem : b.repo ∈ (s0.checkouts ++ [(b.repo, b.rev)]).map Prod.fst := by
    simp
  have h2 : b.try_build (b.try_build s0).1 =
      (⟨s0.checkouts ++ [(b.repo, b.rev)]⟩,
        [GitCmd.fetch b.repo, GitCmd.checkout b.repo b.rev]) := by
    rw [h1]
    simp only [BuildInstructions.try_build, BuildInstructions.sync_repo, if_pos hmem]
    rw [List.map_append, map_update_of_not_mem s0.checkouts b.repo b.rev h]
    simp
  refine ⟨?_, ?_, ?_⟩
  · intro repo rev
    rw [h2]
    simp
  · rw [h2]
  · rw [h2, h1]

/-- Claim C6 amended witness: the amended idempotence statement evaluated
on `sampleBuild` starting from an empty cache. -/
theorem claim_C6_amended_witness :
    GitCmd.clone "op/monorepo" "v1" ∉
        (sampleBuild.try_build (sampleBuild.try_build ⟨[]⟩).1).2
    ∧ (sampleBuild.try_build (sampleBuild.try_build ⟨[]⟩).1).2 =
        [GitCmd.fetch sampleBuild.repo, GitCmd.checkout sampleBuild.repo sampleBuild.rev]
    ∧ (sampleBuild.try_build (sampleBuild.try_build ⟨[]⟩).1).1 =
        (sampleBuild.try_build ⟨[]⟩).1 :=
  ⟨(claim_C6_amended_idempotent sampleBuild ⟨[]⟩ (by decide)).1 "op/monorepo" "v1",
   (claim_C6_amended_idempotent sampleBuild ⟨[]⟩ (by decide)).2.1,
   (claim_C6_amended_idempotent sampleBuild ⟨[]⟩ (by decide)).2.2⟩

/-! ## Claims C3 and C4 — matrix resolution -/

/-- A selection whose explicit program allow-list names only `kona-native`. -/
def konaOnlyConfig : TestConfig :=
  { test := none, vm := none, program := some [ProgramKind.KonaNative]
    partition := none, workers := 4 }

/-- Claim C3 counterexample: with the explicit allow-list
`[kona-native]`, `resolve_matrix` still returns `op-program-native` --
admitted because it is default-flagged -- so a returned program lies
outside the explicit allow-list. -/
theorem claim_C3_counterexample :
    ∃ e ∈ sampleRegistry.resolve_matrix (some konaOnlyConfig),
      ∃ pr ∈ e.programs, pr.1 ∉ [ProgramKind.KonaNative] := by
  refine ⟨(sampleRegistry.resolve_matrix (some konaOnlyConfig)).head (by decide), ?_, ?_⟩
  · decide
  · exact ⟨(ProgramKind.OpProgramNative, sampleProgramDef), by decide, by decide⟩

/-- Claim C3 (amended): with an explicit program allow-list, every program
in every matrix entry is declared compatible with the entry's backend kind
and is either explicitly allow-listed *or default-flagged*: default
programs are returned even when they are outside the allow-list. -/
theorem claim_C3_amended_allow_list (r : FPRegistry) (cfg : TestConfig)
    (allow : List ProgramKind) (h : cfg.program = some allow) :
    ∀ e ∈ r.resolve_matrix (some cfg), ∀ pr ∈ e.programs,
      e.vm_kind ∈ pr.2.platform_compat ∧
        (pr.2.default = true ∨ pr.1 ∈ allow) := by
  intro e he pr hpr
  simp only [FPRegistry.resolve_matrix, List.mem_map] at he
  obtain ⟨p, -, rfl⟩ := he
  simp only [List.mem_filter, h, Bool.and_eq_true, decide_eq_true_eq,
    Bool.or_eq_true] at hpr
  exact ⟨hpr.2.1, hpr.2.2⟩

/-- Claim C3 amended witness: the amended statement evaluated at the sample
registry's matrix entry and its default program under the
`kona-native`-only selection. -/
theorem claim_C3_amended_witness :
    sampleMatrixEntry.vm_kind ∈ sampleProgramDef.platform_compat
    ∧ (sampleProgramDef.default = true
        ∨ ProgramKind.OpProgramNative ∈ [ProgramKind.KonaNative]) :=
  claim_C3_amended_allow_list sampleRegistry konaOnlyConfig
    [ProgramKind.KonaNative] rfl sampleMatrixEntry (by decide)
    (ProgramKind.OpProgramNative, sampleProgramDef) (by decide)

/-- Claim C4: with no explicit backend or program allow-list,
`resolve_matrix` returns exactly the default-flagged backends, each entry
carries exactly the default-flagged programs whose declared compatibility
contains the entry's backend kind, and every returned program is compatible
with its entry's backend. -/
theorem claim_C4_default_selection (r : FPRegistry) (cfg : TestConfig)
    (hvm : cfg.vm = none) (hprog : cfg.program = none) :
    (∀ e ∈ r.resolve_matrix (some cfg),
      (e.vm_kind, e.vm) ∈ r.platform ∧ e.vm.default = true)
    ∧ (∀ p ∈ r.platform, p.2.default = true →
        ∃ e ∈ r.resolve_matrix (some cfg), e.vm_kind = p.1 ∧ e.vm = p.2)
    ∧ (∀ e ∈ r.resolve_matrix (some cfg), ∀ pr ∈ e.programs,
        pr ∈ r.program ∧ pr.2.default = true ∧
          e.vm_kind ∈ pr.2.platform_compat)
    ∧ (∀ e ∈ r.resolve_matrix (some cfg), ∀ pr ∈ r.program,
        pr.2.default = true → e.vm_kind ∈ pr.2.platform_compat →
          pr ∈ e.programs) := by
  refine ⟨?_, ?_, ?_, ?_⟩
  · intro e he
    simp only [FPRegistry.resolve_matrix, hvm, List.mem_map, List.mem_filter] at he
    obtain ⟨p, hp, rfl⟩ := he
    exact ⟨hp.1, hp.2⟩
  · intro p hp hdef
    simp only [FPRegistry.resolve_matrix, hvm, List.mem_map]
    exact ⟨_, ⟨p, List.mem_filter.mpr ⟨hp, hdef⟩, rfl⟩, rfl, rfl⟩
  · intro e he pr hpr
    simp only [FPRegistry.resolve_matrix, hvm, List.mem_map] at he
    obtain ⟨p, -, rfl⟩ := he
    simp only [List.mem_filter, hprog, Bool.and_eq_true, decide_eq_true_eq,
      Bool.or_eq_true] at hpr
    have hdef : pr.2.default = true := by
      rcases hpr.2.2 with h' | h'
      · exact h'
      · exact absurd h' (by simp)
    exact ⟨hpr.1, hdef, hpr.2.1⟩
  · intro e he pr hpr hdef hcompat
    simp only [FPRegistry.resolve_matrix, hvm, List.mem_map] at he
    obtain ⟨p, -, rfl⟩ := he
    simp only [List.mem_filter, hprog, Bool.and_eq_true, decide_eq_true_eq,
      Bool.or_eq_true]
    exact ⟨hpr, hcompat, Or.inl hdef⟩

/-- The fully unconstrained test selection (no allow-lists). -/
def defaultConfig : TestConfig :=
  { test := none, vm := none, program := none, partition := none, workers := 4 }

/-- Claim C4 witness: the default-selection statement evaluated on the
sample registry with the empty selection, at its single matrix entry and
its single default program. -/
theorem claim_C4_witness :
    ((sampleMatrixEntry.vm_kind, sampleMatrixEntry.vm) ∈ sampleRegistry.platform
      ∧ sampleMatrixEntry.vm.default = true)
    ∧ (∃ e ∈ sampleRegistry.resolve_matrix (some defaultConfig),
        e.vm_kind = PlatformKind.Native ∧ e.vm = samplePlatformDef)
    ∧ ((ProgramKind.OpProgramNative, sampleProgramDef) ∈ sampleRegistry.program
      ∧ sampleProgramDef.default = true
      ∧ sampleMatrixEntry.vm_kind ∈ sampleProgramDef.platform_compat)
    ∧ (ProgramKind.OpProgramNative, sampleProgramDef) ∈ sampleMatrixEntry.programs :=
  ⟨(claim_C4_default_selection sampleRegistry defaultConfig rfl rfl).1
      sampleMatrixEntry (by decide),
   (claim_C4_default_selection sampleRegistry defaultConfig rfl rfl).2.1
      (PlatformKind.Native, samplePlatformDef) (by decide) rfl,
   (claim_C4_default_selection sampleRegistry defaultConfig rfl rfl).2.2.1
      sampleMatrixEntry (by decide) (ProgramKind.OpProgramNative, sampleProgramDef)
      (by decide),
   (claim_C4_default_selection sampleRegistry defaultConfig rfl rfl).2.2.2
      sampleMatrixEntry (by decide) (ProgramKind.OpProgramNative, sampleProgramDef)
      (by decide) (by decide) (by decide)⟩

/-! ## Claim C1 — the pass verdict of `RunnableTest::run` -/

/-- Claim C1: whenever a runnable test's backend run completes with an exit
status (and the resolution steps succeed, so the overall run returns a
verdict), the verdict is `true` exactly when the returned status byte
equals the fixture's expected status; any other status yields the verdict
`Except.ok false` — a recorded failed test, never a dropped result. -/
theorem claim_C1_run_verdict (t : RunnableTest) (load_elf : Except Err Unit)
    (status : Nat) (h : (t.run load_elf (Except.ok status)).isOk = true) :
    t.run load_elf (Except.ok status) =
      Except.ok (decide (status = t.fixture_meta.expected_status)) := by
  unfold RunnableTest.run at h ⊢
  repeat' split at h
  all_goals simp_all [Except.isOk, Except.toBool]

/-- Claim C1 witness: the sample test (expected status 0) run with a
backend status of 3 returns the verdict for `3 = 0`, i.e. a recorded
failure. -/
theorem claim_C1_witness :
    sampleTest.run (Except.ok ()) (Except.ok 3) =
      Except.ok (decide ((3 : Nat) = sampleTest.fixture_meta.expected_status)) :=
  claim_C1_run_verdict sampleTest (Except.ok ()) 3 (by decide)

/-! ## Claim C5 — join semantics of the run stage -/

/-- If the `i`-th joined task result is the first error, the join loop
propagates exactly that error, for every accumulator value. -/
theorem joinLoop_first_error (results : List (Except Err Bool)) (i : Nat)
    (e : Err) (hi : results[i]? = some (Except.error e))
    (hfirst : ∀ j, j < i → ∀ r, results[j]? = some r → ∃ b, r = Except.ok b) :
    ∀ acc, TestPipeline.joinLoop results acc = Except.error e := by
  induction results generalizing i with
  | nil => simp at hi
  | cons r rs ih =>
    intro acc
    cases i with
    | zero =>
      simp only [List.getElem?_cons_zero, Option.some_inj] at hi
      rw [hi]
      rfl
    | succ j =>
      obtain ⟨b, rfl⟩ := hfirst 0 (Nat.succ_pos j) r (by simp)
      simp only [List.getElem?_cons_succ] at hi
      exact ih j hi
        (fun k hk r' hr' => hfirst (k + 1) (Nat.succ_lt_succ hk) r'
          (by simpa using hr')) _

/-- If the `i`-th joined task result is the first error, the join loop
consumes exactly `i + 1` results before returning: the remaining
`length - (i + 1)` spawned tasks are never joined (the dropped join set
aborts them). -/
theorem joinedCount_first_error (results : List (Except Err Bool)) (i : Nat)
    (e : Err) (hi : results[i]? = some (Except.error e))
    (hfirst : ∀ j, j < i → ∀ r, results[j]? = some r → ∃ b, r = Except.ok b) :
    TestPipeline.joinedCount results = i + 1 := by
  induction results generalizing i with
  | nil => simp at hi
  | cons r rs ih =>
    cases i with
    | zero =>
      simp only [List.getElem?_cons_zero, Option.some_inj] at hi
      rw [hi]
      rfl
    | succ j =>
      obtain ⟨b, rfl⟩ := hfirst 0 (Nat.succ_pos j) r (by simp)
      simp only [List.getElem?_cons_succ] at hi
      have := ih j hi
        (fun k hk r' hr' => hfirst (k + 1) (Nat.succ_lt_succ hk) r'
          (by simpa using hr'))
      simp only [TestPipeline.joinedCount, this]
      omega

/-- Claim C5 counterexample: two spawned tasks, the first joined result an
infrastructure error — the run stage raises the error after joining only
one of the two tasks, so the already-spawned sibling is *not* awaited to
completion before the error is raised. -/
theorem claim_C5_counterexample :
    TestPipeline.joinedCount
        [Except.error Err.hostArtifactMissing, Except.ok true] = 1
    ∧ ([Except.error Err.hostArtifactMissing,
        Except.ok true] : List (Except Err Bool)).length = 2
    ∧ TestPipeline.runStage
        [Except.error Err.hostArtifactMissing, Except.ok true] =
      Except.error Err.hostArtifactMissing := by
  exact ⟨rfl, rfl, rfl⟩

/-- Claim C5 (amended): if a joined task result is the first infrastructure
error, the run stage propagates exactly that error and produces no partial
pass/fail summary, but it does so as soon as that task is joined: exactly
`i + 1` of the spawned tasks are joined, and any remaining tasks are
dropped with the join set rather than awaited to completion. -/
theorem claim_C5_first_error_aborts (results : List (Except Err Bool))
    (i : Nat) (e : Err) (hi : results[i]? = some (Except.error e))
    (hfirst : ∀ j, j < i → ∀ r, results[j]? = some r → ∃ b, r = Except.ok b) :
    TestPipeline.runStage results = Except.error e
    ∧ TestPipeline.joinedCount results = i + 1 := by
  constructor
  · unfold TestPipeline.runStage
    rw [joinLoop_first_error results i e hi hfirst 0]
  · exact joinedCount_first_error results i e hi hfirst

/-- Claim C5 amended witness: the amended statement evaluated on the
two-task scenario whose first joined result errors. -/
theorem claim_C5_witness :
    TestPipeline.runStage
        [Except.error Err.hostArtifactMissing, Except.ok true] =
      Except.error Err.hostArtifactMissing
    ∧ TestPipeline.joinedCount
        [Except.error Err.hostArtifactMissing, Except.ok true] = 0 + 1 :=
  claim_C5_first_error_aborts
    [Except.error Err.hostArtifactMissing, Except.ok true] 0
    Err.hostArtifactMissing rfl
    (fun j hj _ _ => absurd hj (Nat.not_lt_zero j))

/-! ## Claim C2 — end-to-end failed test and process exit code -/

/-- Whether a joined task result is a recorded pass. -/
def isPass : Except Err Bool → Bool
  | Except.ok true => true
  | _ => false

/-- When every joined task result completes (no infrastructure error), the
join loop returns the accumulator plus the number of passes. -/
theorem joinLoop_all_ok (results : List (Except Err Bool))
    (h : ∀ r ∈ results, ∃ b, r = Except.ok b) :
    ∀ acc, TestPipeline.joinLoop results acc =
      Except.ok (acc + results.countP isPass) := by
  induction results with
  | nil => intro acc; rfl
  | cons r rs ih =>
    intro acc
    obtain ⟨b, rfl⟩ := h r (List.mem_cons_self r rs)
    have := ih (fun r' hr' => h r' (List.mem_cons_of_mem _ hr'))
    cases b with
    | true =>
      simp only [TestPipeline.joinLoop, if_pos rfl, this]
      simp [List.countP_cons, isPass]
      omega
    | false =>
      simp only [TestPipeline.joinLoop, this]
      simp [List.countP_cons, isPass]

/-- The host binary path resolved for the sample program build. -/
def sampleHostRun : Except Err Nat :=
  Native.run (OpProgram.host_cmd ⟨"host", false⟩ sampleInputs)
    (Except.ok (some 1))

/-- The joined task results of the end-to-end scenario: one runnable unit,
`simple-transfer` with expected status 0, whose native host command exits
with code 1. -/
def scenarioResults : List (Except Err Bool) :=
  [sampleTest.run (Except.ok ()) sampleHostRun]

/-- Claim C2 counterexample: in the one-fixture scenario whose native host
command exits 1 (expected status 0), the pipeline's summary is 0 passed and
1 failed — but the process terminates with exit code 0, i.e. with the
success code, not an exit code reflecting the test failure. -/
theorem claim_C2_counterexample :
    TestPipeline.runStage scenarioResults = Except.ok (0, 1)
    ∧ processExitCode (Cli.runTest scenarioResults (Except.ok ())) = 0 := by
  constructor
  · rfl
  · rfl

/-- Claim C2 (amended): whenever every task completes (statuses present,
some differing from expected), the run stage reports the pass count and the
failure count `num_tests - num_passed`, and the process terminates with
exit code 0 — the success exit code — regardless of recorded test failures;
the exit code reflects only infrastructure errors, not test failures. -/
theorem claim_C2_failed_test_summary (results : List (Except Err Bool))
    (h : ∀ r ∈ results, ∃ b, r = Except.ok b) :
    TestPipeline.runStage results =
      Except.ok (results.countP isPass, results.length - results.countP isPass)
    ∧ processExitCode (Cli.runTest results (Except.ok ())) = 0 := by
  have hrun : TestPipeline.runStage results =
      Except.ok (results.countP isPass, results.length - results.countP isPass) := by
    unfold TestPipeline.runStage
    rw [joinLoop_all_ok results h 0]
    simp
  refine ⟨hrun, ?_⟩
  unfold Cli.runTest
  rw [hrun]
  rfl

/-- Claim C2 amended witness: the amended statement evaluated on the
host-exits-1 scenario: summary `(0, 1)` and exit code 0. -/
theorem claim_C2_witness :
    TestPipeline.runStage scenarioResults =
      Except.ok (scenarioResults.countP isPass,
        scenarioResults.length - scenarioResults.countP isPass)
    ∧ processExitCode (Cli.runTest scenarioResults (Except.ok ())) = 0 :=
  claim_C2_failed_test_summary scenarioResults
    (by
      intro r hr
      refine ⟨false, ?_⟩
      simp only [scenarioResults, List.mem_singleton] at hr
      rw [hr]
      rfl)

/-! ## Claim C9 — decompression and cleanup once per distinct fixture -/

/-- Counting occurrences of a key in a `unique_by` result: zero if the key
was already seen, otherwise one exactly when an element of the list carries
the key. -/
theorem uniqueByAux_countP {α β : Type} (key : α → β) [DecidableEq β]
    (p : β) (l : List α) :
    ∀ seen : List β,
      (TestPipeline.uniqueByAux key l seen).countP (fun a => decide (key a = p)) =
        if p ∈ seen then 0
        else if l.any (fun a => decide (key a = p)) then 1 else 0 := by
  induction l with
  | nil => intro seen; simp [TestPipeline.uniqueByAux]
  | cons x xs ih =>
    intro seen
    by_cases hx : key x ∈ seen
    · rw [TestPipeline.uniqueByAux, if_pos hx, ih seen]
      by_cases hps : p ∈ seen
      · simp [hps]
      · have hxp : ¬(key x = p) := fun hh => hps (hh ▸ hx)
        simp [hps, List.any_cons, hxp]
    · rw [TestPipeline.uniqueByAux, if_neg hx, List.countP_cons, ih (key x :: seen)]
      by_cases hxp : key x = p
      · subst hxp
        simp [hx, List.any_cons]
      · have hmem : p ∈ key x :: seen ↔ p ∈ seen := by
          constructor
          · intro hm
            rcases List.mem_cons.mp hm with h' | h'
            · exact absurd h'.symm hxp
            · exact h'
          · intro hm
            exact List.mem_cons_of_mem _ hm
        by_cases hps : p ∈ seen
        · simp [hps, hmem.mpr hps, hxp]
        · have hnot : ¬p ∈ key x :: seen := fun hm => hps (hmem.mp hm)
          simp [hps, hnot, List.any_cons, hxp]

/-- Claim C9: when any number of runnable units reference the same fixture
(identified by its on-disk `genesis.json` path), the setup stage spawns
exactly one `decompress_fixture` call and the teardown stage exactly one
`teardown` call for that fixture — de-duplication is keyed by the fixture's
on-disk identity, not by runnable unit. -/
theorem claim_C9_once_per_fixture (tests : List RunnableTest) (p : String)
    (h : ∃ t ∈ tests, TestPipeline.fixtureKey t = p) :
    (TestPipeline.decompressCalls tests).countP
        (fun t => decide (TestPipeline.fixtureKey t = p)) = 1
    ∧ (TestPipeline.teardownCalls tests).countP
        (fun t => decide (TestPipeline.fixtureKey t = p)) = 1 := by
  have hany : tests.any (fun t => decide (TestPipeline.fixtureKey t = p)) = true := by
    obtain ⟨t, ht, hkey⟩ := h
    exact List.any_eq_true.mpr ⟨t, ht, by simp [hkey]⟩
  have hcount :
      (TestPipeline.uniqueBy TestPipeline.fixtureKey tests).countP
        (fun t => decide (TestPipeline.fixtureKey t = p)) = 1 := by
    rw [TestPipeline.uniqueBy, uniqueByAux_countP TestPipeline.fixtureKey p tests []]
    simp [hany]
  exact ⟨hcount, hcount⟩

/-- A second runnable unit over the same fixture as `sampleTest`, on the
`op-program-mips` program (same genesis path, different unit). -/
def sampleTestMips : RunnableTest :=
  { sampleTest with program_kind := ProgramKind.OpProgramMips }

/-- Claim C9 witness: two runnable units sharing the `simple-transfer`
fixture — one decompression call and one teardown call for its genesis
path. -/
theorem claim_C9_witness :
    (TestPipeline.decompressCalls [sampleTest, sampleTestMips]).countP
        (fun t => decide (TestPipeline.fixtureKey t =
          "tests/simple-transfer/genesis.json")) = 1
    ∧ (TestPipeline.teardownCalls [sampleTest, sampleTestMips]).countP
        (fun t => decide (TestPipeline.fixtureKey t =
          "tests/simple-transfer/genesis.json")) = 1 :=
  claim_C9_once_per_fixture [sampleTest, sampleTestMips]
    "tests/simple-transfer/genesis.json"
    ⟨sampleTest, by simp, rfl⟩
